import Mathlib

/-!
Verification of `robocup_demo/scripts/configure_booster.py`.

The Python script is an interactive tool that shells out to NetworkManager
(`nmcli`), inspects the captured text output of those commands, and patches
three values (`team_id`, `player_id`, `player_role`) into a YAML
configuration file.  We embed it shallowly:

* every external command invocation is represented by its captured output
  (exit code and stdout text), supplied as an explicit input record;
* every parser and file patcher is translated into an executable Lean
  function over those texts;
* mutating network commands are recorded in an explicit action trace
  (`NetAction`), so "performs no mutating calls" becomes "the trace is
  empty".

Python strings are modelled as Lean `String`.  The Python string
primitives the script uses (`split`, `split(sep, 1)`, `splitlines`,
`strip`, `lstrip`, `lower`, `startswith`, substring `in`) are
re-implemented below as structurally recursive functions on `List Char`
so that every definition evaluates inside the kernel.  Exit codes are
modelled as `Nat` (the script only ever compares them with 0).

All definitions come first, then the lemmas and the claim theorems.
-/

/-! Python string primitives. -/

/-- Helper for `strContains`: does `needle` occur as a contiguous sublist? -/
def strContainsAux (needle : List Char) : List Char → Bool
  | [] => needle.isEmpty
  | c :: cs => needle.isPrefixOf (c :: cs) || strContainsAux needle cs

/-- Python `needle in hay` on strings: substring containment. -/
def strContains (hay needle : String) : Bool :=
  strContainsAux needle.data hay.data

/-- Splits a character list at every separator position; helper shared by
the single-character split functions below. -/
def splitWhenAux (p : Char → Bool) : List Char → List Char → List (List Char)
  | cur, [] => [cur.reverse]
  | cur, c :: cs =>
    if p c then cur.reverse :: splitWhenAux p [] cs
    else splitWhenAux p (c :: cur) cs

/-- Python `s.split(sep)` for a single-character separator `sep` (the
script only ever splits on `"."`, `":"` and the double quote). -/
def splitOnChar (sep : Char) (s : String) : List String :=
  (splitWhenAux (fun c => c = sep) [] s.data).map List.asString

/-- Python `s.split()`: split on whitespace runs, discarding empty parts. -/
def pySplit (s : String) : List String :=
  ((splitWhenAux Char.isWhitespace [] s.data).map List.asString).filter
    (fun t => t ≠ "")

/-- Python `s.splitlines()` restricted to `'\n'` separators: like splitting
on `'\n'` but without a trailing empty entry when the text ends in a
newline, and `[]` for the empty string. -/
def pySplitlines (s : String) : List String :=
  if s = "" then []
  else
    let parts := splitOnChar '\n' s
    if parts.getLast? = some "" then parts.dropLast else parts

/-- Python `s.strip()`: drop leading and trailing whitespace. -/
def pyStrip (s : String) : String :=
  ((s.data.dropWhile Char.isWhitespace).reverse.dropWhile
    Char.isWhitespace).reverse.asString

/-- Python `s.lstrip()`: drop leading whitespace. -/
def pyLstrip (s : String) : String :=
  (s.data.dropWhile Char.isWhitespace).asString

/-- Python `s.lower()` (ASCII case folding, which is all the script needs). -/
def pyLower (s : String) : String :=
  (s.data.map Char.toLower).asString

/-- Python `s.startswith(pre)`. -/
def startsWithStr (s pre : String) : Bool :=
  pre.data.isPrefixOf s.data

/-- Joins string pieces with `":"`; helper for `pySplitColonOnce`. -/
def joinWithColon : List String → String
  | [] => ""
  | [x] => x
  | x :: rest => x ++ ":" ++ joinWithColon rest

/-- Python `s.split(":", 1)`: split at the first colon only. -/
def pySplitColonOnce (s : String) : List String :=
  match splitOnChar ':' s with
  | [] => []
  | [x] => [x]
  | x :: rest => [x, joinWithColon rest]

/-- The double-quote character, written by code point to keep the source
free of quote literals. -/
def dquote : Char := Char.ofNat 34

/-! Data model.  `WifiConfig` mirrors the dataclass of the script
(`configure_booster.py`, lines 15-24); note that `subnet` is a string
holding the CIDR length. -/

structure WifiConfig where
  ssid : String
  interface : String
  ip : String
  subnet : String
  gateway : String
  password : String := ""
  dns : String := "8.8.8.8"
deriving DecidableEq, Repr

/-- Captured result of one external command invocation: exit code and
standard output.  The script never inspects stderr in the functions
modelled with this type. -/
structure CommandResult where
  exitCode : Nat
  stdout : String
deriving DecidableEq, Repr

/-! Deriving team and player id (apply_configuration, line 423).
`team_id, player_id = config.ip.split(".")[2:]` — the tuple unpacking
succeeds only when dropping the first two parts leaves exactly two, i.e.
when the IP has exactly four dot-separated octets; otherwise the Python
raises, modelled as `none`. -/

def derive_ids (ip : String) : Option (String × String) :=
  match (splitOnChar '.' ip).drop 2 with
  | [teamId, playerId] => some (teamId, playerId)
  | _ => none

/-! Config-file patching.  `apply_configuration` (lines 431-439) and
`configure_purpose` (lines 358-367) read all lines of `config.yaml` and
write them back, replacing every line that contains the relevant key as a
substring by a freshly rendered line.  Lines are modelled including their
trailing newline, exactly as Python `readlines` yields them. -/

/-- The replacement line written for a `team_id` match (line 434). -/
def teamLine (teamId : String) : String :=
  "      team_id: " ++ teamId ++ " # must be consistant with GameControl\n"

/-- The replacement line written for a `player_id` match (line 437). -/
def playerLine (playerId : String) : String :=
  "      player_id: " ++ playerId ++ " # 1 | 2 | 3 | 4 | 5\n"

/-- The replacement line written for a `player_role` match (line 365). -/
def roleLine (purpose : String) : String :=
  "      player_role: \"" ++ purpose ++ "\" # striker | goal_keeper\n"

/-- Per-line rewrite of the team/player patch (lines 433-438): an
`if`/`elif` chain keyed on substring containment. -/
def patchLine (teamId playerId line : String) : String :=
  if strContains line "team_id" then teamLine teamId
  else if strContains line "player_id" then playerLine playerId
  else line

/-- The whole-file team/player patch (lines 431-439). -/
def patchTeamPlayer (teamId playerId : String) (lines : List String) :
    List String :=
  lines.map (patchLine teamId playerId)

/-- Per-line rewrite of the purpose patch (lines 363-367). -/
def patchRoleLine (purpose line : String) : String :=
  if strContains line "player_role" then roleLine purpose else line

/-- The whole-file purpose patch (lines 360-367). -/
def patchRole (purpose : String) (lines : List String) : List String :=
  lines.map (patchRoleLine purpose)

/-! Listing WiFi networks (get_available_networks, lines 63-78). -/

/-- The accumulator loop of `get_available_networks` (lines 69-77): for
each row that is non-blank and does not start with `"IN-USE"`, take its
second whitespace token and append it unless already collected or equal to
the header token `"SSID"`. -/
def ganLoop (networks : List String) : List String → List String
  | [] => networks
  | line :: rest =>
    if pyStrip line ≠ "" ∧ ¬ startsWithStr line "IN-USE" then
      match pySplit line with
      | _ :: ssid :: _ =>
        if ssid ∉ networks ∧ ssid ≠ "SSID" then
          ganLoop (networks ++ [ssid]) rest
        else ganLoop networks rest
      | _ => ganLoop networks rest
    else ganLoop networks rest

/-- `get_available_networks` (lines 63-78): `[]` when the listing command
failed, otherwise the loop above over the stdout rows. -/
def get_available_networks (res : CommandResult) : List String :=
  if res.exitCode ≠ 0 then [] else ganLoop [] (pySplitlines res.stdout)

/-- The state-independent candidate a row contributes: its second
whitespace token, provided the row is non-blank, does not start with
`"IN-USE"`, has at least two tokens, and the token is not `"SSID"`. -/
def lineCandidate (line : String) : Option String :=
  if pyStrip line ≠ "" ∧ ¬ startsWithStr line "IN-USE" then
    match pySplit line with
    | _ :: ssid :: _ => if ssid ≠ "SSID" then some ssid else none
    | _ => none
  else none

/-- Keeps the first occurrence of each element, dropping elements already
seen. -/
def firstSeenAux (seen : List String) : List String → List String
  | [] => []
  | x :: xs =>
    if x ∈ seen then firstSeenAux seen xs
    else x :: firstSeenAux (x :: seen) xs

/-- De-duplication keeping first occurrences, in order. -/
def firstSeen (l : List String) : List String := firstSeenAux [] l

/-- The two rows of the C7 example: a header row and a starred row for
`robocup-x`. -/
def ganExample : CommandResult :=
  { exitCode := 0
    stdout := "IN-USE  SSID       MODE   CHAN\n*       robocup-x  Infra  6" }

/-! Verification (verify_connection, lines 131-215).  The five probe
commands and their captured outputs: the script inspects the exit code
only where noted. -/

structure VerifyWorld where
  /-- stdout of `nmcli connection show --active` (exit code unused). -/
  activeOut : String
  /-- exit code of `ip addr show <interface>`. -/
  addrExit : Nat
  /-- stdout of `ip addr show <interface>`. -/
  addrOut : String
  /-- stdout of `ip route show default` (exit code unused). -/
  routeOut : String
  /-- exit code of `cat /etc/resolv.conf`. -/
  resolvExit : Nat
  /-- stdout of `cat /etc/resolv.conf`. -/
  resolvOut : String
  /-- exit code of `nmcli device wifi list --rescan no`. -/
  wifiListExit : Nat
  /-- stdout of `nmcli device wifi list --rescan no`. -/
  wifiListOut : String
deriving DecidableEq, Repr

/-- The SSID the WiFi listing reports for `interface` (lines 196-203): the
second whitespace token of the first row that contains both `" interface "`
and `"*"` and has at least two tokens; rows matching the marker test but
with fewer than two tokens are skipped without ending the scan. -/
def connectedSsidOf (interface : String) (lines : List String) :
    Option String :=
  (lines.filterMap (fun line =>
    if strContains line (" " ++ interface ++ " ") && strContains line "*" then
      match pySplit line with
      | _ :: ssid :: _ => some ssid
      | _ => none
    else none)).head?

/-- `verify_connection` (lines 131-215): `all_good` starts true and each
failed check clears it; the five checks in code order are the
active-connection check, the IP/prefix check, the gateway check, the DNS
check, and the associated-SSID check. -/
def verify_connection (cfg : WifiConfig) (w : VerifyWorld) : Bool :=
  let g1 := strContains w.activeOut cfg.ssid
  let g2 := w.addrExit == 0 &&
    (pySplitlines w.addrOut).any (fun line =>
      strContains line "inet " &&
        strContains line (cfg.ip ++ "/" ++ cfg.subnet))
  let g3 := strContains w.routeOut cfg.gateway
  let g4 := w.resolvExit == 0 && strContains w.resolvOut cfg.dns
  let g5 := w.wifiListExit == 0 &&
    (connectedSsidOf cfg.interface (pySplitlines w.wifiListOut) ==
      some cfg.ssid)
  g1 && g2 && g3 && g4 && g5

/-- Sub-check 1 as implemented: the configured SSID occurs in the
active-connections text (lines 137-142). -/
def vcCheckActive (cfg : WifiConfig) (w : VerifyWorld) : Bool :=
  strContains w.activeOut cfg.ssid

/-- Sub-check 2 as implemented: the address command succeeded and some
stdout line contains both `"inet "` and the string `ip ++ "/" ++ subnet`
as substrings (lines 145-167). -/
def vcCheckIp (cfg : WifiConfig) (w : VerifyWorld) : Bool :=
  w.addrExit == 0 &&
    (pySplitlines w.addrOut).any (fun line =>
      strContains line "inet " &&
        strContains line (cfg.ip ++ "/" ++ cfg.subnet))

/-- Sub-check 3 as implemented: the gateway literal occurs in the
default-route text (lines 170-179). -/
def vcCheckGateway (cfg : WifiConfig) (w : VerifyWorld) : Bool :=
  strContains w.routeOut cfg.gateway

/-- Sub-check 4 as implemented: the resolver read succeeded and the DNS
literal occurs in its text (lines 182-191). -/
def vcCheckDns (cfg : WifiConfig) (w : VerifyWorld) : Bool :=
  w.resolvExit == 0 && strContains w.resolvOut cfg.dns

/-- Sub-check 5 as implemented: the WiFi listing succeeded and the starred
row for the interface reports the configured SSID (lines 194-213). -/
def vcCheckSsid (cfg : WifiConfig) (w : VerifyWorld) : Bool :=
  w.wifiListExit == 0 &&
    (connectedSsidOf cfg.interface (pySplitlines w.wifiListOut) ==
      some cfg.ssid)

/-- The IP sub-check as the claim words it: some `"inet "` line of the
address dump has the exact `ip ++ "/" ++ subnet` string as one of its
whitespace tokens (string equality on the token). -/
def vcCheckIpTokenEq (cfg : WifiConfig) (w : VerifyWorld) : Bool :=
  (pySplitlines w.addrOut).any (fun line =>
    strContains line "inet " &&
      (pySplit line).contains (cfg.ip ++ "/" ++ cfg.subnet))

/-- Configuration for the C4 counterexample: subnet `"2"`, so the rendered
token `192.168.57.45/2` is a proper prefix of the token `192.168.57.45/27`
that actually appears in the address dump. -/
def vcCexCfg : WifiConfig :=
  { ssid := "robocup-x"
    interface := "wlan0"
    ip := "192.168.57.45"
    subnet := "2"
    gateway := "192.168.57.1"
    password := ""
    dns := "8.8.8.8" }

/-- Simulated command outputs for the C4 counterexample. -/
def vcCexW : VerifyWorld :=
  { activeOut := "robocup-x  uuid  wifi  wlan0"
    addrExit := 0
    addrOut := "    inet 192.168.57.45/27 brd 192.168.57.63 scope global wlan0"
    routeOut := "default via 192.168.57.1 dev wlan0"
    resolvExit := 0
    resolvOut := "nameserver 8.8.8.8"
    wifiListExit := 0
    wifiListOut := "* robocup-x wlan0 Infra 6 270" }

/-! Mutating network commands.  Every state-changing `nmcli` invocation is
recorded as one of these actions; read-only probes (`nmcli device`,
`nmcli device show`, `nmcli device status`, the verification probes,
`id -u`) are not mutating and are therefore not traced. -/

inductive NetAction
  | disconnect (interface : String)
  | connDelete (name : String)
  | connAdd (name : String)
  | connModify (name : String)
  | connUp (name : String)
  | connDown (name : String)
deriving DecidableEq, Repr

/-! The apply workflow (apply_configuration, lines 419-476). -/

inductive ApplyOutcome
  | notRoot
  | noInterface
  | createFailed
  | activateFailed
  | verifyFailed
  | success
deriving DecidableEq, Repr

/-- External inputs consumed by `apply_configuration`: the initial config
file, the stdout of `id -u`, whether `nmcli device show <interface>` exits
0, the exit codes of `nmcli connection add` and `nmcli connection up`, and
the outputs the final verification inspects. -/
structure ApplyWorld where
  fileLines : List String
  idUOut : String
  ifaceExists : Bool
  addExit : Nat
  upExit : Nat
  vw : VerifyWorld
deriving DecidableEq, Repr

/-- Observable result of one `apply_configuration` run: the config file
after the run, the trace of mutating network commands in order, and where
the run stopped. -/
structure ApplyResult where
  fileLines : List String
  actions : List NetAction
  outcome : ApplyOutcome
deriving DecidableEq, Repr

/-- `apply_configuration` (lines 419-476) in step order: derive the ids
from the IP (line 423; `none` models the unpacking error when the IP does
not have exactly four octets), patch the config file (lines 426-439),
check `id -u` (lines 444-447), check the interface exists (lines 450-454),
then disconnect, delete/add (plus modify when a password is set), bring
the connection up, and verify; each later step aborts on failure. -/
def apply_configuration (cfg : WifiConfig) (w : ApplyWorld) :
    Option ApplyResult :=
  match derive_ids cfg.ip with
  | none => none
  | some (teamId, playerId) =>
    let patched := patchTeamPlayer teamId playerId w.fileLines
    if pyStrip w.idUOut ≠ "0" then
      some { fileLines := patched, actions := [], outcome := .notRoot }
    else if ¬ w.ifaceExists then
      some { fileLines := patched, actions := [], outcome := .noInterface }
    else
      let a2 : List NetAction :=
        [.disconnect cfg.interface, .connDelete cfg.ssid, .connAdd cfg.ssid]
      if w.addExit ≠ 0 then
        some { fileLines := patched, actions := a2, outcome := .createFailed }
      else
        let a3 := a2 ++
          (if cfg.password ≠ "" then [NetAction.connModify cfg.ssid] else [])
        let a4 := a3 ++ [.connUp cfg.ssid]
        if w.upExit ≠ 0 then
          some { fileLines := patched, actions := a4,
                 outcome := .activateFailed }
        else if ¬ verify_connection cfg w.vw then
          some { fileLines := patched, actions := a4,
                 outcome := .verifyFailed }
        else
          some { fileLines := patched, actions := a4, outcome := .success }

/-- The default configuration of the script (lines 566-575). -/
def defaultCfg : WifiConfig :=
  { ssid := "robocup-x"
    interface := "wlp146s0"
    ip := "192.168.57.45"
    subnet := "27"
    gateway := "192.168.57.1"
    password := "9181918191"
    dns := "8.8.8.8" }

/-- A world where all five verification probes succeed for `defaultCfg`;
used by the C4 witness. -/
def vcOkW : VerifyWorld :=
  { activeOut := "robocup-x  uuid-1234  wifi      wlp146s0"
    addrExit := 0
    addrOut :=
      "    inet 192.168.57.45/27 brd 192.168.57.63 scope global wlp146s0"
    routeOut := "default via 192.168.57.1 dev wlp146s0"
    resolvExit := 0
    resolvOut := "nameserver 8.8.8.8"
    wifiListExit := 0
    wifiListOut := "* robocup-x wlp146s0 Infra 6 270" }

/-- A verification world that is never reached in the C2 witness run. -/
def c2Vw : VerifyWorld :=
  { activeOut := ""
    addrExit := 1
    addrOut := ""
    routeOut := ""
    resolvExit := 1
    resolvOut := ""
    wifiListExit := 1
    wifiListOut := "" }

/-- World for the C2 witness: a non-root user (`id -u` prints 1000). -/
def c2World : ApplyWorld :=
  { fileLines := ["      team_id: 0 # c\n", "      player_id: 0 # d\n",
      "other: 1\n"]
    idUOut := "1000\n"
    ifaceExists := true
    addExit := 0
    upExit := 0
    vw := c2Vw }

/-- The result of the C2 witness run. -/
def c2Res : ApplyResult :=
  { fileLines := patchTeamPlayer "57" "45" c2World.fileLines
    actions := []
    outcome := .notRoot }

/-! Reset to DHCP (reset_to_dhcp, lines 497-562). -/

inductive DhcpOutcome
  | statusFailed
  | noActiveWifi
  | showFailed
  | noConnectionName
  | modifyFailed
  | downFailed
  | upFailed
  | success
deriving DecidableEq, Repr

/-- External inputs consumed by `reset_to_dhcp`: the device-status
listing, the device-detail text for the found interface, and the exit
codes of the three mutating commands. -/
structure DhcpWorld where
  statusExit : Nat
  statusOut : String
  showExit : Nat
  showOut : String
  modifyExit : Nat
  downExit : Nat
  upExit : Nat
deriving DecidableEq, Repr

/-- The connected-row test of line 510: both `"wifi"` and `"connected"`
occur in the lower-cased row — note `"disconnected"` contains
`"connected"`, so this test also accepts disconnected WiFi rows. -/
def connectedWifiRow (line : String) : Bool :=
  strContains (pyLower line) "wifi" && strContains (pyLower line) "connected"

/-- First token of the first row passing `connectedWifiRow`
(lines 508-514); rows with no tokens are skipped without ending the scan. -/
def wifiIfaceOf (statusLines : List String) : Option String :=
  (statusLines.filterMap (fun line =>
    if connectedWifiRow line then (pySplit line).head? else none)).head?

/-- The `GENERAL.CONNECTION:` extraction (lines 527-533): the stripped
text after the first colon of the first line containing
`"GENERAL.CONNECTION:"`. -/
def connNameOf (showLines : List String) : Option String :=
  (showLines.filterMap (fun line =>
    if strContains line "GENERAL.CONNECTION:" then
      match pySplitColonOnce line with
      | [_, v] => some (pyStrip v)
      | _ => none
    else none)).head?

/-- `reset_to_dhcp` (lines 497-562), fail-fast at each step, with the
mutating commands it issued traced in order. -/
def reset_to_dhcp (w : DhcpWorld) : List NetAction × DhcpOutcome :=
  if w.statusExit ≠ 0 then ([], .statusFailed)
  else
    match wifiIfaceOf (pySplitlines w.statusOut) with
    | none => ([], .noActiveWifi)
    | some iface =>
      if iface = "" then ([], .noActiveWifi)
      else if w.showExit ≠ 0 then ([], .showFailed)
      else
        match connNameOf (pySplitlines w.showOut) with
        | none => ([], .noConnectionName)
        | some name =>
          if name = "" then ([], .noConnectionName)
          else
            let a1 : List NetAction := [.connModify name]
            if w.modifyExit ≠ 0 then (a1, .modifyFailed)
            else
              let a2 := a1 ++ [.connDown name]
              if w.downExit ≠ 0 then (a2, .downFailed)
              else
                let a3 := a2 ++ [.connUp name]
                if w.upExit ≠ 0 then (a3, .upFailed)
                else (a3, .success)

/-- A device-status row that actually reports a connected WiFi interface:
`wifi` and `connected` as whole whitespace tokens (in `nmcli device
status` output the STATE column reads `connected` exactly when the device
is connected). -/
def specConnectedWifiRow (line : String) : Bool :=
  (pySplit line).contains "wifi" && (pySplit line).contains "connected"

/-- World for the C3 counterexample: the only WiFi row is disconnected,
and the device-detail text reports connection name `--`. -/
def dhcpCexWorld : DhcpWorld :=
  { statusExit := 0
    statusOut :=
      "DEVICE    TYPE      STATE         CONNECTION\nwlp146s0  wifi      disconnected  --"
    showExit := 0
    showOut := "GENERAL.CONNECTION:                     --"
    modifyExit := 0
    downExit := 0
    upExit := 0 }

/-- World for the C3 (amended) witness: only a connected ethernet row. -/
def dhcpNoWifiWorld : DhcpWorld :=
  { statusExit := 0
    statusOut :=
      "DEVICE  TYPE      STATE      CONNECTION\neth0    ethernet  connected  Wired connection 1"
    showExit := 0
    showOut := ""
    modifyExit := 0
    downExit := 0
    upExit := 0 }

/-! Configuring the purpose (configure_purpose, lines 340-369). -/

inductive PurposeOutcome
  | invalidPurpose
  | wroteRole (purpose : String)
  | noNewPurpose
deriving DecidableEq, Repr

/-- The current-purpose read (lines 343-348): from the first line
containing `player_role`, the text between the first pair of double
quotes; `none` models the `IndexError` Python raises when that line
contains no double quote, and the empty string results when no line
matches. -/
def readCurrentPurpose (lines : List String) : Option String :=
  match lines.find? (fun line => strContains line "player_role") with
  | none => some ""
  | some line =>
    match splitOnChar dquote (pyLstrip line) with
    | _ :: v :: _ => some v
    | _ => none

/-- `configure_purpose` (lines 340-369) given the user's input line and
the config file: the input is stripped and lower-cased, rejected unless it
is exactly `striker` or `goal_keeper` (line 354), and only then written
through the role patch; the `else` branch reporting that no new purpose
was provided requires the validated input to be empty. -/
def configure_purpose (userInput : String) (lines : List String) :
    Option (List String × PurposeOutcome) :=
  match readCurrentPurpose lines with
  | none => none
  | some _ =>
    let newPurpose := pyLower (pyStrip userInput)
    if ¬ (newPurpose = "striker" ∨ newPurpose = "goal_keeper") then
      some (lines, .invalidPurpose)
    else if newPurpose ≠ "" then
      some (patchRole newPurpose lines, .wroteRole newPurpose)
    else
      some (lines, .noNewPurpose)

/-- A well-formed config file for the C8 witness. -/
def purposeFileLines : List String :=
  ["      player_role: \"striker\" # striker | goal_keeper\n", "other: 1\n"]

/-! The main menu (main_menu, lines 293-338). -/

inductive MenuAction
  | showConfig
  | editConfig
  | scanNetworks
  | scanInterfaces
  | applyConfig
  | verifyConn
  | testConn
  | resetDhcp
  | configPurpose
  | exitProgram
  | invalidOption
deriving DecidableEq, Repr

/-- The dispatch of one `main_menu` iteration (lines 312-338): the read
line is stripped and compared against the option strings in order.
Option `"10"` is printed in the menu (line 308) but its branch is
commented out in the source (lines 332-333), so no comparison tests for
it. -/
def main_menu_dispatch (rawChoice : String) : MenuAction :=
  let choice := pyStrip rawChoice
  if choice = "1" then .showConfig
  else if choice = "2" then .editConfig
  else if choice = "3" then .scanNetworks
  else if choice = "4" then .scanInterfaces
  else if choice = "5" then .applyConfig
  else if choice = "6" then .verifyConn
  else if choice = "7" then .testConn
  else if choice = "8" then .resetDhcp
  else if choice = "9" then .configPurpose
  else if choice = "0" then .exitProgram
  else .invalidOption

/-- The in-memory `WifiConfig` after one loop iteration: only the editor
(option 2) replaces it — every other handler, and in particular the
invalid-option branch, leaves it untouched. -/
def menuConfigAfter (a : MenuAction) (cfg edited : WifiConfig) :
    WifiConfig :=
  match a with
  | .editConfig => edited
  | _ => cfg

/-- Whether the menu loop runs another iteration after the action: only
the exit option (lines 334-336) leaves the loop. -/
def menuLoopContinues (a : MenuAction) : Bool :=
  match a with
  | .exitProgram => false
  | _ => true

/-! Helper lemmas about substring containment. -/

lemma strContainsAux_nil (m : List Char) : strContainsAux [] m = true := by
  cases m <;> simp [strContainsAux, List.isPrefixOf]

lemma isPrefixOf_append_right (n l m : List Char)
    (h : n.isPrefixOf l = true) : n.isPrefixOf (l ++ m) = true := by
  induction n generalizing l with
  | nil => simp [List.isPrefixOf]
  | cons a as ih =>
    cases l with
    | nil => simp [List.isPrefixOf] at h
    | cons b bs =>
      simp only [List.cons_append, List.isPrefixOf, Bool.and_eq_true,
        beq_iff_eq] at h ⊢
      exact ⟨h.1, ih bs h.2⟩

lemma strContainsAux_append_right (n l m : List Char)
    (h : strContainsAux n l = true) : strContainsAux n (l ++ m) = true := by
  induction l with
  | nil =>
    simp only [strContainsAux, List.isEmpty_iff] at h
    subst h
    exact strContainsAux_nil m
  | cons c cs ih =>
    simp only [strContainsAux, Bool.or_eq_true] at h
    rcases h with h | h
    · simp only [List.cons_append, strContainsAux, Bool.or_eq_true]
      exact Or.inl (isPrefixOf_append_right _ _ _ h)
    · simp only [List.cons_append, strContainsAux, Bool.or_eq_true]
      exact Or.inr (ih h)

lemma strContains_append_right (a b n : String)
    (h : strContains a n = true) : strContains (a ++ b) n = true := by
  unfold strContains at h ⊢
  rw [String.data_append]
  exact strContainsAux_append_right _ _ _ h

lemma teamLine_contains_team (t : String) :
    strContains (teamLine t) "team_id" = true := by
  unfold teamLine
  exact strContains_append_right _ _ _
    (strContains_append_right _ _ _ (by decide))

lemma playerLine_contains_player (p : String) :
    strContains (playerLine p) "player_id" = true := by
  unfold playerLine
  exact strContains_append_right _ _ _
    (strContains_append_right _ _ _ (by decide))

lemma roleLine_contains_role (r : String) :
    strContains (roleLine r) "player_role" = true := by
  unfold roleLine
  exact strContains_append_right _ _ _
    (strContains_append_right _ _ _ (by decide))

/-! Helper lemmas for the network-listing loop. -/

lemma ganLoop_cons (acc : List String) (line : String) (rest : List String) :
    ganLoop acc (line :: rest) =
      match lineCandidate line with
      | some s =>
          if s ∈ acc then ganLoop acc rest else ganLoop (acc ++ [s]) rest
      | none => ganLoop acc rest := by
  show (if pyStrip line ≠ "" ∧ ¬ startsWithStr line "IN-USE" then
      match pySplit line with
      | _ :: ssid :: _ =>
        if ssid ∉ acc ∧ ssid ≠ "SSID" then
          ganLoop (acc ++ [ssid]) rest
        else ganLoop acc rest
      | _ => ganLoop acc rest
    else ganLoop acc rest) = _
  unfold lineCandidate
  by_cases hc : pyStrip line ≠ "" ∧ ¬ startsWithStr line "IN-USE"
  · rw [if_pos hc, if_pos hc]
    cases pySplit line with
    | nil => rfl
    | cons a tl =>
      cases tl with
      | nil => rfl
      | cons ssid tl2 =>
        by_cases hS : ssid = "SSID"
        · simp [hS]
        · by_cases hmem : ssid ∈ acc
          · simp [hS, hmem]
          · simp [hS, hmem]
  · rw [if_neg hc, if_neg hc]

lemma ganLoop_eq_firstSeenAux (lines : List String) :
    ∀ acc seen, (∀ y, y ∈ acc ↔ y ∈ seen) →
      ganLoop acc lines =
        acc ++ firstSeenAux seen (lines.filterMap lineCandidate) := by
  induction lines with
  | nil =>
    intro acc seen _
    simp [ganLoop, firstSeenAux]
  | cons line rest ih =>
    intro acc seen h
    rw [List.filterMap_cons, ganLoop_cons]
    cases hcand : lineCandidate line with
    | none =>
      simp only
      exact ih acc seen h
    | some s =>
      simp only [firstSeenAux]
      by_cases hmem : s ∈ acc
      · rw [if_pos hmem, if_pos ((h s).mp hmem)]
        exact ih acc seen h
      · rw [if_neg hmem, if_neg (fun hs => hmem ((h s).mpr hs))]
        rw [ih (acc ++ [s]) (s :: seen) ?_]
        · simp
        · intro y
          simp only [List.mem_append, List.mem_singleton, List.mem_cons]
          rw [h y]
          tauto

lemma firstSeenAux_nodup_and_fresh (l : List String) :
    ∀ seen, (firstSeenAux seen l).Nodup ∧
      ∀ x ∈ firstSeenAux seen l, x ∉ seen := by
  induction l with
  | nil =>
    intro seen
    simp [firstSeenAux]
  | cons x xs ih =>
    intro seen
    by_cases hx : x ∈ seen
    · simp only [firstSeenAux, if_pos hx]
      exact ih seen
    · simp only [firstSeenAux, if_neg hx]
      obtain ⟨hnd, hfresh⟩ := ih (x :: seen)
      refine ⟨List.nodup_cons.mpr ⟨?_, hnd⟩, ?_⟩
      · intro hmem
        exact hfresh x hmem (List.mem_cons_self x seen)
      · intro y hy
        rcases List.mem_cons.mp hy with rfl | hy'
        · exact hx
        · intro hseen
          exact hfresh y hy' (List.mem_cons_of_mem x hseen)

/-! Claim C1. -/

/-- C1: for every `WifiConfig` whose `ip` has exactly four dot-separated
octets, the derive step of `apply_configuration` yields the 3rd octet
string as `team_id` and the 4th as `player_id`; in particular
`"192.168.57.45"` yields `("57", "45")`. -/
theorem c1_derive_third_fourth_octet :
    (∀ ip a b c d, splitOnChar '.' ip = [a, b, c, d] →
      derive_ids ip = some (c, d)) ∧
    derive_ids "192.168.57.45" = some ("57", "45") := by
  constructor
  · intro ip a b c d h
    unfold derive_ids
    rw [h]
    rfl
  · rfl

/-- Witness for C1 at the concrete default IP. -/
theorem c1_derive_third_fourth_octet_witness :
    derive_ids "192.168.57.45" = some ("57", "45") :=
  c1_derive_third_fourth_octet.1 "192.168.57.45" "192" "168" "57" "45"
    (by decide)

/-! Claim C2. -/

/-- C2: when `id -u` does not report `0`, `apply_configuration` performs
no mutating network calls at all and stops at the privilege gate — but the
team/player id patch of the config file has already been written, because
the patch precedes the privilege check in the code. -/
theorem c2_privilege_gate_after_patch :
    ∀ cfg w res, apply_configuration cfg w = some res →
      pyStrip w.idUOut ≠ "0" →
      res.actions = [] ∧ res.outcome = ApplyOutcome.notRoot ∧
      ∃ teamId playerId,
        derive_ids cfg.ip = some (teamId, playerId) ∧
        res.fileLines = patchTeamPlayer teamId playerId w.fileLines := by
  intro cfg w res hrun hroot
  unfold apply_configuration at hrun
  cases hd : derive_ids cfg.ip with
  | none =>
    rw [hd] at hrun
    exact absurd hrun (by simp)
  | some tp =>
    obtain ⟨teamId, playerId⟩ := tp
    rw [hd] at hrun
    simp only [if_pos hroot] at hrun
    obtain rfl := (Option.some_injective _ hrun).symm
    exact ⟨rfl, rfl, teamId, playerId, rfl, rfl⟩

/-- Witness for C2: a concrete non-root run of the default configuration
leaves no mutating action and the patched file. -/
theorem c2_privilege_gate_after_patch_witness :
    c2Res.actions = [] ∧ c2Res.outcome = ApplyOutcome.notRoot ∧
    ∃ teamId playerId,
      derive_ids defaultCfg.ip = some (teamId, playerId) ∧
      c2Res.fileLines = patchTeamPlayer teamId playerId c2World.fileLines :=
  c2_privilege_gate_after_patch defaultCfg c2World c2Res (by decide)
    (by decide)

/-! Claim C3. -/

/-- C3 counterexample: a device-status text with no row for a connected
WiFi interface (no row has `connected` as a column value) on which
`reset_to_dhcp` nonetheless proceeds — `"disconnected"` contains
`"connected"`, so the substring test of line 510 accepts the disconnected
row — and issues three mutating calls on connection `--` instead of
reporting that no active WiFi connection was found. -/
theorem c3_no_active_counterexample :
    ((pySplitlines dhcpCexWorld.statusOut).all
      (fun line => !(specConnectedWifiRow line))) = true ∧
    reset_to_dhcp dhcpCexWorld =
      ([NetAction.connModify "--", NetAction.connDown "--",
        NetAction.connUp "--"], DhcpOutcome.success) := by decide

/-- C3 (amended): when the status command succeeds and no row passes the
code's substring test — both `"wifi"` and `"connected"` occurring in the
lower-cased row, which is weaker than the row being for a connected WiFi
interface — `reset_to_dhcp` reports that no active WiFi connection was
found and performs zero mutating calls. -/
theorem c3_no_active_wifi_amended :
    ∀ w : DhcpWorld, w.statusExit = 0 →
      (∀ line ∈ pySplitlines w.statusOut, connectedWifiRow line = false) →
      reset_to_dhcp w = ([], DhcpOutcome.noActiveWifi) := by
  intro w h0 hrows
  unfold reset_to_dhcp
  rw [if_neg (by simp [h0])]
  have hiface : wifiIfaceOf (pySplitlines w.statusOut) = none := by
    unfold wifiIfaceOf
    rw [List.filterMap_eq_nil_iff.mpr ?_]
    · rfl
    · intro line hl
      simp [hrows line hl]
  rw [hiface]

/-- Witness for C3 (amended) on a status listing with no WiFi row. -/
theorem c3_no_active_wifi_amended_witness :
    reset_to_dhcp dhcpNoWifiWorld = ([], DhcpOutcome.noActiveWifi) :=
  c3_no_active_wifi_amended dhcpNoWifiWorld rfl (by decide)

/-! Claim C4. -/

/-- C4 counterexample: with string equality on the `ip/subnet` token, as
the claim words the IP sub-check, the claimed equivalence fails: the code
tests substring containment on the whole line, so it accepts the address
dump token `192.168.57.45/27` for the configured `192.168.57.45/2` and
returns overall pass although no token equals `192.168.57.45/2`. -/
theorem c4_verify_iff_counterexample :
    ¬ (verify_connection vcCexCfg vcCexW = true ↔
      (vcCheckActive vcCexCfg vcCexW = true ∧
       vcCheckIpTokenEq vcCexCfg vcCexW = true ∧
       vcCheckGateway vcCexCfg vcCexW = true ∧
       vcCheckDns vcCexCfg vcCexW = true ∧
       vcCheckSsid vcCexCfg vcCexW = true)) := by decide

/-- C4 (amended): `verify_connection` returns true iff all five sub-checks
as implemented pass — where the IP sub-check is substring containment of
`ip ++ "/" ++ subnet` in an `"inet "` line (not token equality), and the
address, resolver and WiFi-list probes must additionally have exited 0. -/
theorem c4_verify_iff_five_checks :
    ∀ cfg w, verify_connection cfg w = true ↔
      (vcCheckActive cfg w = true ∧ vcCheckIp cfg w = true ∧
       vcCheckGateway cfg w = true ∧ vcCheckDns cfg w = true ∧
       vcCheckSsid cfg w = true) := by
  intro cfg w
  unfold verify_connection vcCheckActive vcCheckIp vcCheckGateway
    vcCheckDns vcCheckSsid
  simp only [Bool.and_eq_true]
  tauto

/-- Witness for C4 (amended): a world where all five checks pass, so the
right-to-left direction yields overall pass. -/
theorem c4_verify_iff_five_checks_witness :
    verify_connection defaultCfg vcOkW = true :=
  (c4_verify_iff_five_checks defaultCfg vcOkW).mpr
    ⟨by decide, by decide, by decide, by decide, by decide⟩

/-! Claim C5. -/

/-- C5: both config-file patches map each line independently, so they
preserve line count and order, and every line that does not contain the
relevant key substrings is reproduced byte-for-byte. -/
theorem c5_patch_preserves_nonmatching_lines :
    ∀ teamId playerId purpose lines,
      (patchTeamPlayer teamId playerId lines).length = lines.length ∧
      (patchRole purpose lines).length = lines.length ∧
      ∀ (i : Nat) line, lines[i]? = some line →
        (strContains line "team_id" = false →
         strContains line "player_id" = false →
          (patchTeamPlayer teamId playerId lines)[i]? = some line) ∧
        (strContains line "player_role" = false →
          (patchRole purpose lines)[i]? = some line) := by
  intro t p r lines
  refine ⟨by simp [patchTeamPlayer], by simp [patchRole], ?_⟩
  intro i line hline
  constructor
  · intro h1 h2
    simp [patchTeamPlayer, List.getElem?_map, hline, patchLine, h1, h2]
  · intro h1
    simp [patchRole, List.getElem?_map, hline, patchRoleLine, h1]

/-- Witness for C5 on a one-line file whose line contains no target key. -/
theorem c5_patch_preserves_nonmatching_lines_witness :
    (patchTeamPlayer "1" "2" ["foo: bar"])[0]? = some "foo: bar" ∧
    (patchRole "striker" ["foo: bar"])[0]? = some "foo: bar" :=
  ⟨((c5_patch_preserves_nonmatching_lines "1" "2" "striker"
      ["foo: bar"]).2.2 0 "foo: bar" rfl).1 (by decide) (by decide),
   ((c5_patch_preserves_nonmatching_lines "1" "2" "striker"
      ["foo: bar"]).2.2 0 "foo: bar" rfl).2 (by decide)⟩

/-! Claim C6. -/

/-- C6 counterexample: the team/player patch is not idempotent for every
value.  With player id value `"team_id"`, the first pass rewrites a
`player_id` line into a player line carrying that value, and the second
pass — whose `if` branch tests for the substring `"team_id"` first —
rewrites that line into a `team_id` line, so applying the patch twice
differs from applying it once. -/
theorem c6_idempotence_counterexample :
    patchTeamPlayer "1" "team_id"
        (patchTeamPlayer "1" "team_id" ["x player_id x"]) ≠
      patchTeamPlayer "1" "team_id" ["x player_id x"] := by decide

/-- C6 (amended): the team/player patch is idempotent provided the rendered
`player_id` replacement line does not contain `"team_id"` as a substring
(in particular for every numeric player id), and the `player_role` patch is
unconditionally idempotent. -/
theorem c6_patch_idempotent_amended :
    ∀ teamId playerId purpose lines,
      (strContains (playerLine playerId) "team_id" = false →
        patchTeamPlayer teamId playerId
            (patchTeamPlayer teamId playerId lines) =
          patchTeamPlayer teamId playerId lines) ∧
      patchRole purpose (patchRole purpose lines) =
        patchRole purpose lines := by
  intro t p r lines
  constructor
  · intro hp
    unfold patchTeamPlayer
    rw [List.map_map]
    apply List.map_congr_left
    intro a _
    show patchLine t p (patchLine t p a) = patchLine t p a
    by_cases h1 : strContains a "team_id" = true
    · simp only [patchLine, h1, if_true]
      simp [patchLine, teamLine_contains_team]
    · by_cases h2 : strContains a "player_id" = true
      · simp only [patchLine, h1, h2, if_true, if_false, Bool.not_eq_true]
        simp [patchLine, hp, playerLine_contains_player]
      · simp only [Bool.not_eq_true] at h1 h2
        simp [patchLine, h1, h2]
  · unfold patchRole
    rw [List.map_map]
    apply List.map_congr_left
    intro a _
    show patchRoleLine r (patchRoleLine r a) = patchRoleLine r a
    by_cases h1 : strContains a "player_role" = true
    · simp [patchRoleLine, h1, roleLine_contains_role]
    · simp only [Bool.not_eq_true] at h1
      simp [patchRoleLine, h1]

/-- Witness for C6 (amended) with the numeric ids the tool derives. -/
theorem c6_patch_idempotent_amended_witness :
    patchTeamPlayer "57" "45"
        (patchTeamPlayer "57" "45" ["      team_id: 0\n", "other\n"]) =
      patchTeamPlayer "57" "45" ["      team_id: 0\n", "other\n"] :=
  (c6_patch_idempotent_amended "57" "45" "striker"
    ["      team_id: 0\n", "other\n"]).1 (by decide)

/-! Claim C7. -/

/-- C7: on a successful listing, `get_available_networks` returns the
second whitespace token of each non-header, non-blank row, de-duplicated
keeping first occurrences in order (hence without duplicates); on the
example rows it returns exactly `["robocup-x"]`. -/
theorem c7_networks_first_seen_dedup :
    (∀ res, res.exitCode = 0 →
      get_available_networks res =
        firstSeen ((pySplitlines res.stdout).filterMap lineCandidate) ∧
      (get_available_networks res).Nodup) ∧
    get_available_networks ganExample = ["robocup-x"] := by
  have key : ∀ res : CommandResult, res.exitCode = 0 →
      get_available_networks res =
        firstSeen ((pySplitlines res.stdout).filterMap lineCandidate) := by
    intro res h
    unfold get_available_networks
    rw [if_neg (by simp [h])]
    exact ganLoop_eq_firstSeenAux _ [] [] (by simp)
  refine ⟨?_, by decide⟩
  intro res h
  refine ⟨key res h, ?_⟩
  rw [key res h]
  exact (firstSeenAux_nodup_and_fresh _ []).1

/-- Witness for C7 at the concrete example listing. -/
theorem c7_networks_first_seen_dedup_witness :
    get_available_networks ganExample =
      firstSeen ((pySplitlines ganExample.stdout).filterMap lineCandidate) ∧
    (get_available_networks ganExample).Nodup :=
  c7_networks_first_seen_dedup.1 ganExample rfl

/-! Claim C8. -/

/-- C8: whenever the read of the current purpose does not raise, any input
whose stripped lower-cased form is not exactly `striker` or `goal_keeper`
— including the empty input the prompt offers — is reported invalid and
the file is returned unchanged; and no run whatsoever reaches the
`noNewPurpose` branch, which is therefore unreachable. -/
theorem c8_invalid_purpose_rejected :
    (∀ userInput lines, readCurrentPurpose lines ≠ none →
      pyLower (pyStrip userInput) ≠ "striker" →
      pyLower (pyStrip userInput) ≠ "goal_keeper" →
      configure_purpose userInput lines =
        some (lines, PurposeOutcome.invalidPurpose)) ∧
    (∀ userInput lines fileLines,
      configure_purpose userInput lines ≠
        some (fileLines, PurposeOutcome.noNewPurpose)) := by
  constructor
  · intro inp lines hread h1 h2
    unfold configure_purpose
    cases hr : readCurrentPurpose lines with
    | none => exact absurd hr hread
    | some v =>
      simp only
      rw [if_pos (not_or.mpr ⟨h1, h2⟩)]
  · intro inp lines f
    unfold configure_purpose
    cases hr : readCurrentPurpose lines with
    | none => simp
    | some v =>
      simp only
      by_cases hv : pyLower (pyStrip inp) = "striker" ∨
          pyLower (pyStrip inp) = "goal_keeper"
      · rw [if_neg (not_not_intro hv)]
        have hne : pyLower (pyStrip inp) ≠ "" := by
          rcases hv with h | h <;> simp [h]
        rw [if_pos hne]
        simp
      · rw [if_pos hv]
        simp

/-- Witness for C8 at the empty input (the `Enter to keep` case) and at a
junk input. -/
theorem c8_invalid_purpose_rejected_witness :
    configure_purpose "" purposeFileLines =
      some (purposeFileLines, PurposeOutcome.invalidPurpose) ∧
    configure_purpose "attacker" purposeFileLines ≠
      some (purposeFileLines, PurposeOutcome.noNewPurpose) :=
  ⟨c8_invalid_purpose_rejected.1 "" purposeFileLines (by decide) (by decide)
      (by decide),
   c8_invalid_purpose_rejected.2 "attacker" purposeFileLines
      purposeFileLines⟩

/-! Claim C9. -/

/-- C9: in the team/player patch, the `player_id` branch is an `elif`, so a
line containing both `"team_id"` and `"player_id"` is rewritten only as a
`team_id` line; and containment is tested on the whole line as a
substring, so every line containing either key anywhere is rewritten. -/
theorem c9_elif_team_shadows_player :
    ∀ teamId playerId line,
      (strContains line "team_id" = true →
        patchLine teamId playerId line = teamLine teamId) ∧
      (strContains line "player_id" = true →
       strContains line "team_id" = false →
        patchLine teamId playerId line = playerLine playerId) := by
  intro t p line
  constructor
  · intro h
    simp [patchLine, h]
  · intro h1 h2
    simp [patchLine, h1, h2]

/-- Witness for C9: a line containing both keys becomes a team line, and a
line mentioning `player_id` inside a comment is still rewritten. -/
theorem c9_elif_team_shadows_player_witness :
    patchLine "1" "2" "x team_id player_id x" = teamLine "1" ∧
    patchLine "1" "2" "# about player_id somewhere" = playerLine "2" :=
  ⟨(c9_elif_team_shadows_player "1" "2" "x team_id player_id x").1
      (by decide),
   (c9_elif_team_shadows_player "1" "2" "# about player_id somewhere").2
      (by decide) (by decide)⟩

/-! Claim C10. -/

/-- C10: entering `"10"` dispatches to no handler — it maps to the
invalid-option branch, which changes no state and continues the loop —
and every input whose stripped form is none of the recognised option
strings behaves the same way. -/
theorem c10_option_ten_unhandled :
    main_menu_dispatch "10" = MenuAction.invalidOption ∧
    (∀ cfg edited,
      menuConfigAfter (main_menu_dispatch "10") cfg edited = cfg) ∧
    menuLoopContinues (main_menu_dispatch "10") = true ∧
    (∀ s, pyStrip s ∉
        ["1", "2", "3", "4", "5", "6", "7", "8", "9", "0"] →
      main_menu_dispatch s = MenuAction.invalidOption) := by
  refine ⟨by decide, ?_, by decide, ?_⟩
  · intro cfg edited
    rfl
  · intro s hs
    simp only [List.mem_cons, List.mem_singleton, not_or] at hs
    obtain ⟨h1, h2, h3, h4, h5, h6, h7, h8, h9, h0⟩ := hs
    unfold main_menu_dispatch
    simp [h1, h2, h3, h4, h5, h6, h7, h8, h9, h0]

/-- Witness for C10 at the input `" 10 "` (stripped to `"10"`). -/
theorem c10_option_ten_unhandled_witness :
    main_menu_dispatch " 10 " = MenuAction.invalidOption :=
  c10_option_ten_unhandled.2.2.2 " 10 " (by decide)
